import Mathlib

/-!
Shallow embedding of the idea-incubator backend (FastAPI + SQLAlchemy + Gemini client)
found under src/backend/app.

Modelling conventions:
- Python machine floats on the score fields are modelled as exact rationals; the
  concrete inputs appearing in the claims are far from rounding ties, where the
  double-precision computation and the rational computation agree.
- Python round(x, 2) is modelled by roundHalfEven on rationals (Python rounds
  half to even).
- Nullable ORM columns are modelled as Option; Python truthiness of a string column
  treats None and the empty string as falsy, of a numeric column None and 0.
- The database session is modelled by explicit state passing: a DB value is the
  persisted state, and a commit is the single point where a new DB value replaces
  the old one.  Uncommitted session mutations that are abandoned when an exception
  escapes a handler are rolled back by the get_db dependency, so they never reach
  the persisted DB value.
- The Gemini provider is modelled as an oracle mapping the attempt index to an
  outcome (a raised error or a response text); wall-clock timestamps and the
  prompt texts sent to the provider are not modelled.
- Each router operation is the function of the persisted state and its inputs that
  the corresponding FastAPI handler implements; HTTP errors are returned as values.
-/

namespace Incubator

/-- Python truthiness coalescing on an optional string column: x or default, where
None and the empty string are falsy. -/
def pyOr (v : Option String) (d : String) : String :=
  match v with
  | none => d
  | some s => if s == "" then d else s

/-- Python truthiness coalescing on an optional numeric column: x or default, where
None and 0 are falsy. -/
def pyQOr (v : Option ℚ) (d : ℚ) : ℚ :=
  match v with
  | none => d
  | some x => if x == 0 then d else x

/-- Python truthiness of an optional numeric column, as used by all([...]). -/
def pyQTruthy : Option ℚ → Bool
  | none => false
  | some x => x != 0

/-- Python substring operator w in s. -/
def pyIn (w s : String) : Bool := decide (w.toList <:+: s.toList)

/-- Python str.lower modelled characterwise (the source only lowercases ASCII
keyword text). -/
def pyLower (s : String) : String := ⟨s.data.map Char.toLower⟩

/-- Python str.strip modelled as removal of leading and trailing whitespace. -/
def pyStrip (s : String) : String :=
  ⟨((s.data.dropWhile Char.isWhitespace).reverse.dropWhile
    Char.isWhitespace).reverse⟩

/-- Python round-half-to-even of a rational to an integer. -/
def roundHalfEven (q : ℚ) : ℤ :=
  let f := ⌊q⌋
  if q - f < 1 / 2 then f
  else if q - f > 1 / 2 then f + 1
  else if f % 2 = 0 then f else f + 1

/-- Python round(x, 2): round half to even at two decimal places. -/
def pyRound2 (q : ℚ) : ℚ := (roundHalfEven (q * 100) : ℚ) / 100

/-- Clamp a score into the 1.0 .. 10.0 band, as max(1.0, min(10.0, x)) in the source. -/
def clamp110 (x : ℚ) : ℚ := max 1 (min 10 x)

/-- Development stages of an idea (models/idea.py, DevelopmentStage). -/
inductive DevelopmentStage
  | concept
  | research
  | prototype
  | testing
  | launch
deriving DecidableEq, Repr

/-- String value of a development stage, as DevelopmentStage.value in the source. -/
def DevelopmentStage.value : DevelopmentStage → String
  | .concept => "concept"
  | .research => "research"
  | .prototype => "prototype"
  | .testing => "testing"
  | .launch => "launch"

/-- Persisted Idea row (models/idea.py).  Timestamps are not modelled. -/
structure Idea where
  id : Nat
  title : String
  description : String
  development_stage : DevelopmentStage
  ai_validated : Bool
  ai_refined_pitch : Option String
  market_potential : Option ℚ
  technical_complexity : Option ℚ
  resource_requirements : Option ℚ
  created_by : Nat
deriving DecidableEq, Repr

/-- Embedding of the Idea.feasibility_score property (models/idea.py lines 48-58):
the presence check is Python all([m, t, r]), which is truthiness, so a dimension
equal to 0 is treated exactly like an absent one. -/
def Idea.feasibility_score (i : Idea) : ℚ :=
  if pyQTruthy i.market_potential && pyQTruthy i.technical_complexity
      && pyQTruthy i.resource_requirements then
    pyRound2 ((i.market_potential.getD 0 + (11 - i.technical_complexity.getD 0)
      + (11 - i.resource_requirements.getD 0)) / 3)
  else 0

/-- Persisted IdeaInsight row (models/insight.py).  Timestamps are not modelled. -/
structure IdeaInsight where
  idea_id : Nat
  market_insights : Option String
  risk_assessment : Option String
  implementation_roadmap : Option String
  is_ai_generated : Bool
  generation_version : Nat
deriving DecidableEq, Repr

/-- Persisted database state: the ideas table and the idea_insights table. -/
structure DB where
  ideas : List Idea
  insights : List IdeaInsight
deriving DecidableEq, Repr

/-- Response schema InsightSummary (schemas/insight.py); the two timestamp strings
are not modelled. -/
structure InsightSummary where
  idea_id : Nat
  idea_title : String
  market_insights : String
  risk_assessment : String
  implementation_roadmap : String
  is_ai_generated : Bool
  generation_version : Nat
deriving DecidableEq, Repr

/-- Result of a router operation: a value or an HTTPException status code. -/
inductive ApiResult (α : Type)
  | ok : α → ApiResult α
  | httpError : Nat → ApiResult α
deriving DecidableEq, Repr

/-! ## The AI provider client (services/ai_service.py, _generate_content_async) -/

/-- Outcome of one underlying provider call: either the call raises, or it returns a
response whose text is the given string.  A None response and a response with empty
text are both modelled as resp with the empty string, since the source treats both
as the same Empty response failure. -/
inductive ProviderOutcome
  | err : String → ProviderOutcome
  | resp : String → ProviderOutcome
deriving DecidableEq, Repr

/-- Semantics of one attempt inside _generate_content_async: a raised error is a
failure, and a response with empty text is converted into the Empty response
failure; otherwise the response is returned. -/
def attemptResult : ProviderOutcome → Except String String
  | .err m => .error m
  | .resp t => if t == "" then .error "Empty response from Gemini API" else .ok t

/-- Trace of one _generate_content_async run: the final result, the number of
attempts made, and the list of backoff sleeps (in seconds) performed between
failed attempts. -/
structure GenTrace where
  result : Except String String
  attempts : Nat
  sleeps : List Nat
deriving Repr

/-- The retry loop of _generate_content_async (services/ai_service.py lines
472-495): attempt is the current 0-based attempt index and remaining is the number
of loop iterations left; remaining = 0 is never reached from the entry point below
because the final iteration re-raises instead of continuing. -/
def generateLoop (provider : Nat → ProviderOutcome) (baseDelay : Nat) :
    Nat → Nat → GenTrace
  | attempt, 0 => ⟨.error "", attempt, []⟩
  | attempt, remaining + 1 =>
    match attemptResult (provider attempt) with
    | .ok t => ⟨.ok t, attempt + 1, []⟩
    | .error e =>
      if remaining = 0 then ⟨.error e, attempt + 1, []⟩
      else
        let rest := generateLoop provider baseDelay (attempt + 1) remaining
        ⟨rest.result, rest.attempts, baseDelay * 2 ^ attempt :: rest.sleeps⟩

/-- Embedding of _generate_content_async: max_retries = 3, base_delay = 2, and the
backoff before retrying after a failed attempt is base_delay * 2 ^ attempt. -/
def generate_content_async (provider : Nat → ProviderOutcome) : GenTrace :=
  generateLoop provider 2 0 3

/-! ## The insight generator services (services/ai_service.py)

The source class defines generate_market_insights, generate_risk_assessment,
generate_implementation_roadmap and their fallback helpers twice inside the same
class body; in Python the later definition shadows the earlier one, so the
embeddings below transcribe the behaviorally-last definition of each method. -/

/-- Router-side idea_data dict built by get_idea_insights before the service calls
(routers/ideas.py lines 417-425). -/
structure IdeaData where
  title : String
  description : String
  ai_refined_pitch : Option String
  development_stage : String
  market_potential : Option ℚ
  technical_complexity : Option ℚ
  resource_requirements : Option ℚ
deriving DecidableEq, Repr

/-- Embedding of GeminiAIService._fallback_market_insights, the later definition in
the class body (services/ai_service.py lines 858-886); the description argument is
accepted but unused by the template, as in the source. -/
def fallback_market_insights (title description : String) : String :=
  "**Market Analysis for " ++ title ++ "**\n\n" ++
  "**Market Opportunity**\n" ++
  "Based on the business concept described, this solution addresses a clear market need with significant potential for growth and customer adoption in the current business environment.\n\n" ++
  "**Target Market Segments**\n" ++
  "- Primary customers likely include individuals and businesses seeking innovative solutions in this domain\n" ++
  "- Market size appears substantial with room for new entrants and innovative approaches\n" ++
  "- Customer segments demonstrate strong potential for early adoption and market penetration\n\n" ++
  "**Competitive Landscape Assessment**\n" ++
  "- Market contains established players but shows opportunities for differentiation through innovation\n" ++
  "- Competitive positioning can be strengthened through strategic feature development and unique value proposition\n" ++
  "- Market gaps exist that can be exploited through focused product development\n\n" ++
  "**Growth Potential & Trends**\n" ++
  "- Industry trends indicate positive growth trajectory and increasing demand for solutions in this space\n" ++
  "- Technology adoption patterns and market dynamics support business model viability\n" ++
  "- Expansion opportunities exist across multiple customer segments and geographic markets\n\n" ++
  "**Strategic Market Entry Recommendations**\n" ++
  "- Focus on comprehensive customer validation and achieving strong product-market fit\n" ++
  "- Develop compelling brand positioning and clear market differentiation strategy\n" ++
  "- Consider strategic partnerships for accelerated market entry and scaling opportunities\n" ++
  "- Implement robust market feedback loops for continuous product improvement\n\n" ++
  "*Note: This is a general market overview based on available information. Comprehensive AI market analysis temporarily unavailable - please try again later for detailed competitive intelligence and market sizing.*"

/-- Embedding of GeminiAIService._fallback_risk_assessment, the later definition in
the class body (services/ai_service.py lines 888-926). -/
def fallback_risk_assessment (title stage : String) : String :=
  "**Risk Assessment for " ++ title ++ "**\n\n" ++
  "**Market Risks - Medium Level**\n" ++
  "- Customer adoption timeline may vary based on market readiness and competitive landscape\n" ++
  "- Market timing risks and potential demand volatility require careful monitoring\n" ++
  "- Competitive response could impact market positioning and customer acquisition strategy\n\n" ++
  "**Technical Risks - Stage-Appropriate Level**\n" ++
  "- Development challenges typical for " ++ stage ++ " stage projects need thorough assessment\n" ++
  "- Technical feasibility should be validated through systematic prototyping and testing\n" ++
  "- Integration and scalability requirements need comprehensive analysis and planning\n\n" ++
  "**Financial Risks - Standard Startup Profile**\n" ++
  "- Funding requirements align with development stage expectations and market conditions\n" ++
  "- Revenue timeline dependent on market entry strategy and customer acquisition effectiveness\n" ++
  "- Cash flow management critical for sustainability during growth phases\n\n" ++
  "**Operational Risks - Manageable with Planning**\n" ++
  "- Team building and talent acquisition standard challenges for current stage\n" ++
  "- Scaling challenges manageable with proper planning and phased approach\n" ++
  "- Quality control systems need early implementation and continuous improvement\n\n" ++
  "**Strategic Risks - Controllable Factors**\n" ++
  "- Strategic positioning requires ongoing market analysis and competitive intelligence\n" ++
  "- Partnership and vendor dependencies need risk mitigation and backup planning\n" ++
  "- Long-term sustainability depends on market adaptation and continuous innovation\n\n" ++
  "**Risk Mitigation Framework**\n" ++
  "- Conduct thorough market validation before major capital investments\n" ++
  "- Develop minimum viable product approach for early market testing and feedback\n" ++
  "- Establish clear success metrics and regular milestone review processes\n" ++
  "- Build strong advisory network and mentorship for strategic guidance\n\n" ++
  "*Note: This is a general risk overview based on available information. Comprehensive AI risk analysis temporarily unavailable - please try again later for detailed risk assessment with specific mitigation strategies.*"

/-- Embedding of GeminiAIService._fallback_implementation_roadmap, the last of its
definitions in the class body and so the effective one (services/ai_service.py
lines 978-1015); the stage value is extracted by the source but unused in this
template. -/
def fallback_implementation_roadmap (title stage : String) : String :=
  "**Implementation Roadmap for " ++ title ++ "**\n\n" ++
  "**Phase 1: Foundation (Months 1-3)**\n" ++
  "- Market validation and customer discovery\n" ++
  "- Competitive analysis and positioning\n" ++
  "- Team assembly and skill gap analysis\n" ++
  "- Initial funding and resource planning\n\n" ++
  "**Phase 2: Development (Months 4-6)**\n" ++
  "- Minimum viable product development\n" ++
  "- Technology infrastructure setup\n" ++
  "- Brand development and marketing strategy\n" ++
  "- Early customer feedback and iteration\n\n" ++
  "**Phase 3: Testing & Refinement (Months 7-9)**\n" ++
  "- Beta testing and user feedback integration\n" ++
  "- Product refinement and feature optimization\n" ++
  "- Go-to-market strategy finalization\n" ++
  "- Strategic partnership development\n\n" ++
  "**Phase 4: Launch & Scale (Months 10-12)**\n" ++
  "- Market launch and customer acquisition\n" ++
  "- Performance monitoring and optimization\n" ++
  "- Revenue generation and growth tracking\n" ++
  "- Expansion planning and next phase preparation\n\n" ++
  "**Key Success Factors**\n" ++
  "- Customer-centric development approach\n" ++
  "- Agile methodology and rapid iteration\n" ++
  "- Strong market feedback integration\n" ++
  "- Sustainable business model validation\n\n" ++
  "*Note: This is a general implementation framework. Full AI roadmap analysis temporarily unavailable - please try again later for detailed strategic planning.*"

/-- Embedding of the effective generate_market_insights (services/ai_service.py
lines 630-700): validates its inputs, calls the provider through the retry client,
and absorbs every provider failure, empty result and short result by returning the
service-level fallback text; the second component counts provider attempts made. -/
def generate_market_insights (provider : Nat → ProviderOutcome)
    (title description : String) (refined_pitch : Option String) : String × Nat :=
  if title == "" || description == "" then
    (fallback_market_insights (if title == "" then "Unknown" else title)
      (if description == "" then "No description" else description), 0)
  else
    let tr := generate_content_async provider
    match tr.result with
    | .error _ => (fallback_market_insights title description, tr.attempts)
    | .ok text =>
      let result := pyStrip text
      if result == "" || result.length < 50 then
        (fallback_market_insights title description, tr.attempts)
      else (result, tr.attempts)

/-- Embedding of the effective generate_risk_assessment (services/ai_service.py
lines 702-774): same absorption pattern as market insights. -/
def generate_risk_assessment (provider : Nat → ProviderOutcome) (d : IdeaData) :
    String × Nat :=
  if d.title == "" then (fallback_risk_assessment d.title d.development_stage, 0)
  else
    let tr := generate_content_async provider
    match tr.result with
    | .error _ => (fallback_risk_assessment d.title d.development_stage, tr.attempts)
    | .ok text =>
      let result := pyStrip text
      if result == "" || result.length < 50 then
        (fallback_risk_assessment d.title d.development_stage, tr.attempts)
      else (result, tr.attempts)

/-- Embedding of the effective generate_implementation_roadmap
(services/ai_service.py lines 776-855): same absorption pattern. -/
def generate_implementation_roadmap (provider : Nat → ProviderOutcome)
    (d : IdeaData) : String × Nat :=
  if d.title == "" then
    (fallback_implementation_roadmap d.title d.development_stage, 0)
  else
    let tr := generate_content_async provider
    match tr.result with
    | .error _ =>
      (fallback_implementation_roadmap d.title d.development_stage, tr.attempts)
    | .ok text =>
      let result := pyStrip text
      if result == "" || result.length < 50 then
        (fallback_implementation_roadmap d.title d.development_stage, tr.attempts)
      else (result, tr.attempts)

/-- Base scores per development stage used by the fallback scorer
(services/ai_service.py lines 536-544); an unknown stage string gets the concept
default, matching dict.get with default. -/
def stageScores (stage : String) : ℚ × ℚ × ℚ :=
  if stage == "concept" then (6, 11 / 2, 13 / 2)
  else if stage == "research" then (7, 6, 7)
  else if stage == "prototype" then (15 / 2, 9 / 2, 15 / 2)
  else if stage == "testing" then (8, 7 / 2, 8)
  else if stage == "launch" then (17 / 2, 5 / 2, 17 / 2)
  else (6, 11 / 2, 13 / 2)

/-- Embedding of GeminiAIService._fallback_scoring (services/ai_service.py lines
529-563): stage-based baselines, keyword adjustments on the lowercased title and
description, then clamping of each dimension into 1.0 .. 10.0. -/
def fallback_scoring (d : IdeaData) : ℚ × ℚ × ℚ :=
  let title := pyLower d.title
  let description := pyLower d.description
  let base := stageScores d.development_stage
  let base :=
    if ["ai", "artificial intelligence", "machine learning", "automation"].any
        (fun w => pyIn w title || pyIn w description) then
      (base.1 + 1, base.2.1 + 2, base.2.2 + 3 / 2)
    else base
  let base :=
    if ["mobile", "app", "platform", "software"].any
        (fun w => pyIn w title || pyIn w description) then
      (base.1 + 1 / 2, base.2.1 + 1, base.2.2 + 1 / 2)
    else base
  (clamp110 base.1, clamp110 base.2.1, clamp110 base.2.2)

/-! ## The router (routers/ideas.py)

Every handler depends on an authenticated current_user; uid below is that id.
Ids of persisted rows are primary keys, so at most one idea per id and at most one
insight record per idea exist; the embeddings below use first-match queries like
the ORM .first() calls in the source. -/

/-- Router-level fallback template for a failed market insights generation
(routers/ideas.py line 444). -/
def routerMarketFallback (title : String) : String :=
  "**Market Analysis for " ++ title ++
    "**\n\nMarket analysis temporarily unavailable. Please try again later."

/-- Router-level fallback template for a failed risk assessment generation
(routers/ideas.py line 454). -/
def routerRiskFallback (title : String) : String :=
  "**Risk Assessment for " ++ title ++
    "**\n\nRisk analysis temporarily unavailable. Please try again later."

/-- Router-level fallback template for a failed implementation roadmap generation
(routers/ideas.py line 464). -/
def routerRoadmapFallback (title : String) : String :=
  "**Implementation Roadmap for " ++ title ++
    "**\n\nImplementation planning temporarily unavailable. Please try again later."

/-- Provider oracles for the three artifact generations of one insights run; each
service call runs its own retry loop against its own oracle. -/
structure AIEnv where
  marketProvider : Nat → ProviderOutcome
  riskProvider : Nat → ProviderOutcome
  roadmapProvider : Nat → ProviderOutcome

/-- One router-level artifact generation with its try/except (routers/ideas.py
lines 434-465).  The first argument is the Except-valued view of the awaited
service call: ok r if the call returns r, error if it raises.  The embedded
service functions are total, so the router only ever receives ok; the error branch
transcribes the except handler of the source, which substitutes the router-level
template, records zero provider attempts and clears the is_ai_generated flag
(third component false). -/
def routerGenStep (serviceCall : Except String (String × Nat))
    (routerFallback : String) : String × Nat × Bool :=
  match serviceCall with
  | .ok (t, n) => (t, n, true)
  | .error _ => (routerFallback, 0, false)

/-- InsightSummary built from a persisted record after commit and refresh
(routers/ideas.py lines 500-510); the text fields of a freshly committed record
are always present. -/
def summaryOf (idea_id : Nat) (title : String) (r : IdeaInsight) : InsightSummary :=
  { idea_id := idea_id
    idea_title := title
    market_insights := r.market_insights.getD ""
    risk_assessment := r.risk_assessment.getD ""
    implementation_roadmap := r.implementation_roadmap.getD ""
    is_ai_generated := r.is_ai_generated
    generation_version := r.generation_version }

/-- Router-side idea_data dict value built from an idea before the service calls
(routers/ideas.py lines 417-425), with or-coalescing of possibly absent scores. -/
def ideaDataOf (idea : Idea) : IdeaData :=
  { title := idea.title
    description := idea.description
    ai_refined_pitch := idea.ai_refined_pitch
    development_stage := idea.development_stage.value
    market_potential := some (pyQOr idea.market_potential 5)
    technical_complexity := some (pyQOr idea.technical_complexity 5)
    resource_requirements := some (pyQOr idea.resource_requirements 5) }

/-- Generation-and-persistence phase of get_idea_insights (routers/ideas.py lines
411-510): run the three artifact generations with per-artifact error handling,
then save or update the insight record in one commit.  The result carries the new
persisted state, the response, and the total number of provider attempts made. -/
def generateAndSaveInsights (env : AIEnv) (db : DB) (idea : Idea) (idea_id : Nat)
    (existing : Option IdeaInsight) : DB × ApiResult InsightSummary × Nat :=
  let d : IdeaData := ideaDataOf idea
  let mk := routerGenStep
    (.ok (generate_market_insights env.marketProvider idea.title idea.description
      (some (pyOr idea.ai_refined_pitch idea.description))))
    (routerMarketFallback idea.title)
  let rk := routerGenStep (.ok (generate_risk_assessment env.riskProvider d))
    (routerRiskFallback idea.title)
  let rd := routerGenStep
    (.ok (generate_implementation_roadmap env.roadmapProvider d))
    (routerRoadmapFallback idea.title)
  let is_ai := mk.2.2 && rk.2.2 && rd.2.2
  let calls := mk.2.1 + rk.2.1 + rd.2.1
  match existing with
  | some r =>
    let r2 := { r with
      market_insights := some mk.1
      risk_assessment := some rk.1
      implementation_roadmap := some rd.1
      is_ai_generated := is_ai
      generation_version := r.generation_version + 1 }
    let db2 := { db with
      insights := db.insights.map (fun x => if x.idea_id == idea_id then r2 else x) }
    (db2, .ok (summaryOf idea_id idea.title r2), calls)
  | none =>
    let r2 : IdeaInsight :=
      { idea_id := idea_id
        market_insights := some mk.1
        risk_assessment := some rk.1
        implementation_roadmap := some rd.1
        is_ai_generated := is_ai
        generation_version := 1 }
    ({ db with insights := db.insights ++ [r2] },
      .ok (summaryOf idea_id idea.title r2), calls)

/-- Embedding of the get_idea_insights handler (routers/ideas.py lines 372-521):
ownership-scoped idea lookup, cache-hit return of an existing record when
force_regenerate is false (with Python or-coalescing of possibly absent fields),
otherwise generation and a single commit.  The third component is the total number
of provider attempts made during the request. -/
def get_idea_insights (env : AIEnv) (db : DB) (idea_id uid : Nat)
    (force_regenerate : Bool) : DB × ApiResult InsightSummary × Nat :=
  match db.ideas.find? (fun i => i.id == idea_id && i.created_by == uid) with
  | none => (db, .httpError 404, 0)
  | some idea =>
    match db.insights.find? (fun r => r.idea_id == idea_id) with
    | some existing =>
      if !force_regenerate then
        (db, .ok
          { idea_id := idea_id
            idea_title := idea.title
            market_insights := pyOr existing.market_insights
              "Market insights not available"
            risk_assessment := pyOr existing.risk_assessment
              "Risk assessment not available"
            implementation_roadmap := pyOr existing.implementation_roadmap
              "Implementation roadmap not available"
            is_ai_generated := existing.is_ai_generated
            generation_version := existing.generation_version }, 0)
      else generateAndSaveInsights env db idea idea_id (some existing)
    | none => generateAndSaveInsights env db idea idea_id none

/-- Commit of an updated idea row: the persisted row with this primary key is
replaced in a single step. -/
def commitIdea (db : DB) (idea_id : Nat) (idea2 : Idea) : DB :=
  { db with ideas := db.ideas.map (fun i => if i.id == idea_id then idea2 else i) }

/-- Embedding of the enhance_idea_with_ai handler (routers/ideas.py lines
305-367).  The embedded AI service calls are total (refine_idea and
generate_feasibility_analysis absorb provider failures internally and return
fallback content), so their results appear as the refined and m, t, r parameters;
failStep models an unexpected exception raised during the try block: step 0 the
refinement call, step 1 the scoring call, step 2 the flag assignment, step 3 the
commit itself.  An exception reaches the except handler, which raises HTTP 500;
the session is closed without a commit, so its uncommitted mutations are rolled
back and the persisted state is unchanged. -/
def enhance_idea_with_ai (db : DB) (idea_id uid : Nat) (refined : String)
    (m t r : ℚ) (failStep : Option Nat) : DB × ApiResult Idea :=
  match db.ideas.find? (fun i => i.id == idea_id && i.created_by == uid) with
  | none => (db, .httpError 404)
  | some idea =>
    if failStep == some 0 then (db, .httpError 500) else
    let s1 := { idea with ai_refined_pitch := some refined }
    if failStep == some 1 then (db, .httpError 500) else
    let s2 := { s1 with
      market_potential := some m
      technical_complexity := some t
      resource_requirements := some r }
    if failStep == some 2 then (db, .httpError 500) else
    let s3 := { s2 with ai_validated := true }
    if failStep == some 3 then (db, .httpError 500) else
    (commitIdea db idea_id s3, .ok s3)

/-- Embedding of the create_idea handler (routers/ideas.py lines 17-93): a basic
row with ai_validated false is created and committed first; then the AI
enhancement runs in its own try block whose failure (aiFails) is swallowed,
leaving the committed basic row in place, and whose success commits the enriched
row with ai_validated true. -/
def create_idea (db : DB) (newId : Nat) (title description : String)
    (stage : DevelopmentStage) (uid : Nat) (refined : String) (m t r : ℚ)
    (aiFails : Bool) : DB × Idea :=
  let base : Idea :=
    { id := newId
      title := title
      description := description
      development_stage := stage
      ai_validated := false
      ai_refined_pitch := none
      market_potential := some 5
      technical_complexity := some 5
      resource_requirements := some 5
      created_by := uid }
  let db1 := { db with ideas := db.ideas ++ [base] }
  if aiFails then (db1, base)
  else
    let enhanced := { base with
      ai_refined_pitch := some refined
      market_potential := some m
      technical_complexity := some t
      resource_requirements := some r
      ai_validated := true }
    (commitIdea db1 newId enhanced, enhanced)

/-- Embedding of the list_ideas handler (routers/ideas.py lines 99-171): the query
always filters on created_by = current user before the optional stage,
ai_validated and search filters, then paginates.  Sorting is not modelled: it
permutes the filtered list and cannot change membership. -/
def list_ideas (db : DB) (uid skip limit : Nat) (stage : Option DevelopmentStage)
    (ai_validated : Option Bool) (search : Option String) : List Idea :=
  let q := db.ideas.filter (fun i => i.created_by == uid)
  let q := match stage with
    | none => q
    | some s => q.filter (fun i => i.development_stage == s)
  let q := match ai_validated with
    | none => q
    | some b => q.filter (fun i => i.ai_validated == b)
  let q := match search with
    | none => q
    | some s => q.filter (fun i =>
        pyIn (pyLower s) (pyLower i.title) || pyIn (pyLower s) (pyLower i.description)
          || pyIn (pyLower s) (pyLower (i.ai_refined_pitch.getD "")))
  (q.drop skip).take limit

/-- Embedding of the get_idea handler (routers/ideas.py lines 174-192): the lookup
filters on id and ownership together, and a miss is 404. -/
def get_idea (db : DB) (idea_id uid : Nat) : ApiResult Idea :=
  match db.ideas.find? (fun i => i.id == idea_id && i.created_by == uid) with
  | none => .httpError 404
  | some i => .ok i

/-- Partial update payload IdeaUpdate (schemas/idea.py); absent fields are left
unset. -/
structure IdeaUpdate where
  title : Option String
  description : Option String
  development_stage : Option DevelopmentStage
  market_potential : Option ℚ
  technical_complexity : Option ℚ
  resource_requirements : Option ℚ
deriving DecidableEq, Repr

/-- Application of the set fields of an update to a row (routers/ideas.py lines
218-220). -/
def applyIdeaUpdate (u : IdeaUpdate) (i : Idea) : Idea :=
  { i with
    title := u.title.getD i.title
    description := u.description.getD i.description
    development_stage := u.development_stage.getD i.development_stage
    market_potential := match u.market_potential with
      | none => i.market_potential
      | some x => some x
    technical_complexity := match u.technical_complexity with
      | none => i.technical_complexity
      | some x => some x
    resource_requirements := match u.resource_requirements with
      | none => i.resource_requirements
      | some x => some x }

/-- Embedding of the update_idea handler (routers/ideas.py lines 195-224): lookup
by id alone, then an explicit ownership check that answers 403 before anything is
modified. -/
def update_idea (db : DB) (idea_id uid : Nat) (u : IdeaUpdate) :
    DB × ApiResult Idea :=
  match db.ideas.find? (fun i => i.id == idea_id) with
  | none => (db, .httpError 404)
  | some i =>
    if i.created_by != uid then (db, .httpError 403)
    else
      let i2 := applyIdeaUpdate u i
      (commitIdea db idea_id i2, .ok i2)

/-- Embedding of the delete_idea handler (routers/ideas.py lines 226-249): lookup
by id alone, then an explicit ownership check that answers 403 before the delete. -/
def delete_idea (db : DB) (idea_id uid : Nat) : DB × ApiResult String :=
  match db.ideas.find? (fun i => i.id == idea_id) with
  | none => (db, .httpError 404)
  | some i =>
    if i.created_by != uid then (db, .httpError 403)
    else
      ({ db with ideas := db.ideas.filter (fun x => !(x.id == idea_id)) },
        .ok "Idea deleted successfully")

/-- A provider that fails on every attempt. -/
def alwaysFailProvider : Nat → ProviderOutcome := fun _ => .err "boom"

/-- A provider that fails twice and then succeeds on the third attempt. -/
def failTwiceProvider : Nat → ProviderOutcome :=
  fun n => if n < 2 then .err "boom" else .resp "recovered text"

/-- Claim C6: the AI client makes at most 3 attempts, returns the provider text on
the first successful attempt (in particular after two failures), treats an empty
text response as a failure, sleeps base * 2 ^ attempt (2s then 4s) between failed
attempts, and after the third failed attempt propagates the failure without
substituting content. -/
theorem C6_retry_policy :
    (∀ provider : Nat → ProviderOutcome,
      (generate_content_async provider).attempts ≤ 3)
    ∧ (∀ provider : Nat → ProviderOutcome, ∀ t : String,
        provider 0 = .resp t → t ≠ "" →
        generate_content_async provider = ⟨.ok t, 1, []⟩)
    ∧ (∀ provider : Nat → ProviderOutcome, ∀ t e₀ e₁ : String,
        attemptResult (provider 0) = .error e₀ →
        attemptResult (provider 1) = .error e₁ →
        provider 2 = .resp t → t ≠ "" →
        generate_content_async provider = ⟨.ok t, 3, [2, 4]⟩)
    ∧ (∀ provider : Nat → ProviderOutcome,
        (∀ i, i < 3 → ∃ e, attemptResult (provider i) = .error e) →
        ∃ e, generate_content_async provider = ⟨.error e, 3, [2, 4]⟩)
    ∧ attemptResult (.resp "") = .error "Empty response from Gemini API" := by
  refine ⟨?_, ?_, ?_, ?_, rfl⟩
  · intro provider
    simp only [generate_content_async, generateLoop]
    cases attemptResult (provider 0) with
    | ok t => simp
    | error e =>
      simp only []
      cases attemptResult (provider 1) with
      | ok t => simp
      | error e =>
        simp only []
        cases attemptResult (provider 2) with
        | ok t => simp
        | error e => simp
  · intro provider t h0 ht
    simp only [generate_content_async, generateLoop, h0, attemptResult,
      beq_iff_eq, if_neg ht]
  · intro provider t e₀ e₁ h0 h1 h2 ht
    simp only [generate_content_async, generateLoop, h0, h1, h2]
    simp [attemptResult, ht]
  · intro provider h
    obtain ⟨e0, h0⟩ := h 0 (by omega)
    obtain ⟨e1, h1⟩ := h 1 (by omega)
    obtain ⟨e2, h2⟩ := h 2 (by omega)
    refine ⟨e2, ?_⟩
    simp only [generate_content_async, generateLoop, h0, h1, h2]
    rfl

/-- Witness for C6 at two concrete providers: with two failures then a success the
client returns the successful text after exactly 3 attempts with sleeps 2s and 4s,
and with a provider that always fails it surfaces a failure after exactly 3
attempts. -/
theorem C6_retry_policy_witness :
    generate_content_async failTwiceProvider = ⟨.ok "recovered text", 3, [2, 4]⟩
    ∧ ∃ e, generate_content_async alwaysFailProvider = ⟨.error e, 3, [2, 4]⟩ := by
  constructor
  · exact C6_retry_policy.2.2.1 failTwiceProvider "recovered text" "boom" "boom"
      rfl rfl rfl (by decide)
  · exact C6_retry_policy.2.2.2.1 alwaysFailProvider
      (by intro i _; exact ⟨"boom", rfl⟩)

/-! ## Claims about the feasibility score (C7, C10) -/

/-- Helper: the score formula on a truthy triple of dimensions. -/
lemma feasibility_formula (i : Idea) (m t r : ℚ)
    (hm : i.market_potential = some m) (ht : i.technical_complexity = some t)
    (hr : i.resource_requirements = some r)
    (hm0 : m ≠ 0) (ht0 : t ≠ 0) (hr0 : r ≠ 0) :
    i.feasibility_score = pyRound2 ((m + (11 - t) + (11 - r)) / 3) := by
  have h1 : pyQTruthy (some m) = true := by simpa [pyQTruthy] using hm0
  have h2 : pyQTruthy (some t) = true := by simpa [pyQTruthy] using ht0
  have h3 : pyQTruthy (some r) = true := by simpa [pyQTruthy] using hr0
  simp [Idea.feasibility_score, hm, ht, hr, h1, h2, h3]

/-- Concrete idea carrying the dimension triple (7.0, 3.0, 4.0) of the spec
example. -/
def c7Idea : Idea :=
  { id := 1
    title := "Example"
    description := "Example description"
    development_stage := .concept
    ai_validated := false
    ai_refined_pitch := none
    market_potential := some 7
    technical_complexity := some 3
    resource_requirements := some 4
    created_by := 9 }

/-- Concrete idea whose dimensions are all present but whose market dimension is
the falsy value 0. -/
def c7ZeroIdea : Idea :=
  { c7Idea with
    market_potential := some 0
    technical_complexity := some 5
    resource_requirements := some 5 }

/-- Claim C7 is false on the code at two concrete inputs: the spec example value is
wrong, feasibility_score (7, 3, 4) is 7.33 and not 8.67; and an idea whose three
dimensions are all present but with market_potential = 0 gets score 0.0 instead of
the formula value 4.0. -/
theorem C7_spec_example_false :
    c7Idea.feasibility_score = 733 / 100
    ∧ c7Idea.feasibility_score ≠ 867 / 100
    ∧ c7ZeroIdea.feasibility_score = 0
    ∧ pyRound2 ((0 + (11 - 5) + (11 - 5)) / 3) = 4 := by
  have hv : c7Idea.feasibility_score = 733 / 100 := by
    rw [feasibility_formula c7Idea 7 3 4 rfl rfl rfl (by norm_num) (by norm_num)
      (by norm_num)]
    norm_num [pyRound2, roundHalfEven]
  refine ⟨hv, by rw [hv]; norm_num, ?_, by norm_num [pyRound2, roundHalfEven]⟩
  simp [c7ZeroIdea, c7Idea, Idea.feasibility_score, pyQTruthy]

/-- Claim C7 (amended): for every idea whose three dimensions are present and
truthy, feasibility_score is (m + (11 - t) + (11 - r)) / 3 rounded to two
decimals; in particular feasibility_score (7.0, 3.0, 4.0) = 7.33 (the figure 8.67
in the spec example is arithmetically wrong); and when any dimension is absent the
score is 0.0.  The score is a pure function of the current dimension values by
construction. -/
theorem C7_feasibility_score_amended :
    (∀ (i : Idea) (m t r : ℚ), i.market_potential = some m →
      i.technical_complexity = some t → i.resource_requirements = some r →
      m ≠ 0 → t ≠ 0 → r ≠ 0 →
      i.feasibility_score = pyRound2 ((m + (11 - t) + (11 - r)) / 3))
    ∧ (∀ i : Idea, i.market_potential = none ∨ i.technical_complexity = none ∨
        i.resource_requirements = none → i.feasibility_score = 0)
    ∧ (∀ i : Idea, i.market_potential = some 7 → i.technical_complexity = some 3 →
        i.resource_requirements = some 4 → i.feasibility_score = 733 / 100) := by
  refine ⟨feasibility_formula, ?_, ?_⟩
  · intro i h
    rcases h with h | h | h <;> simp [Idea.feasibility_score, pyQTruthy, h]
  · intro i hm ht hr
    rw [feasibility_formula i 7 3 4 hm ht hr (by norm_num) (by norm_num)
      (by norm_num)]
    norm_num [pyRound2, roundHalfEven]

/-- Witness for the amended C7 at the concrete spec-example idea. -/
theorem C7_feasibility_score_amended_witness :
    c7Idea.feasibility_score = 733 / 100 :=
  C7_feasibility_score_amended.2.2 c7Idea rfl rfl rfl

/-- Concrete idea with a present but zero technical complexity. -/
def c10Idea : Idea :=
  { id := 2
    title := "Zero complexity"
    description := "Idea with a zero dimension"
    development_stage := .research
    ai_validated := false
    ai_refined_pitch := none
    market_potential := some 8
    technical_complexity := some 0
    resource_requirements := some 2
    created_by := 9 }

/-- Claim C10: the presence check in feasibility_score is truthiness, so any
dimension equal to 0 sends the score to 0.0 exactly as if it were absent. -/
theorem C10_zero_dimension_truthiness :
    ∀ i : Idea, i.market_potential = some 0 ∨ i.technical_complexity = some 0 ∨
      i.resource_requirements = some 0 → i.feasibility_score = 0 := by
  intro i h
  rcases h with h | h | h <;> simp [Idea.feasibility_score, pyQTruthy, h]

/-- Witness for C10 at a concrete idea with technical_complexity = 0. -/
theorem C10_zero_dimension_truthiness_witness : c10Idea.feasibility_score = 0 :=
  C10_zero_dimension_truthiness c10Idea (Or.inr (Or.inl rfl))

/-! ## Claim about the fallback scorer (C8) -/

/-- Helper: clamp110 stays within the 1 .. 10 band. -/
lemma clamp110_mem (x : ℚ) : 1 ≤ clamp110 x ∧ clamp110 x ≤ 10 :=
  ⟨le_max_left 1 _, max_le (by norm_num) (min_le_left _ _)⟩

/-- Claim C8: the fallback scorer keeps every dimension within 1.0 .. 10.0 after
stage baselines and keyword adjustments, and it is a deterministic pure function
of its input. -/
theorem C8_fallback_scoring_bounded_deterministic :
    (∀ d : IdeaData,
      (1 ≤ (fallback_scoring d).1 ∧ (fallback_scoring d).1 ≤ 10)
      ∧ (1 ≤ (fallback_scoring d).2.1 ∧ (fallback_scoring d).2.1 ≤ 10)
      ∧ (1 ≤ (fallback_scoring d).2.2 ∧ (fallback_scoring d).2.2 ≤ 10))
    ∧ (∀ d d2 : IdeaData, d = d2 → fallback_scoring d = fallback_scoring d2) := by
  constructor
  · intro d
    exact ⟨clamp110_mem _, clamp110_mem _, clamp110_mem _⟩
  · intro d d2 h
    rw [h]

/-- Concrete fallback-scorer input for the C8 witness. -/
def c8Data : IdeaData :=
  { title := "Smart AI App"
    description := "An automation tool for mobile platforms"
    ai_refined_pitch := none
    development_stage := "prototype"
    market_potential := none
    technical_complexity := none
    resource_requirements := none }

/-- Witness for C8 at a concrete input, together with the evaluated value there:
prototype baselines (7.5, 4.5, 7.5), both keyword families matched, all clamped
within bounds. -/
theorem C8_fallback_scoring_witness :
    (1 ≤ (fallback_scoring c8Data).1 ∧ (fallback_scoring c8Data).1 ≤ 10)
    ∧ fallback_scoring c8Data = fallback_scoring c8Data
    ∧ fallback_scoring c8Data = (9, 15 / 2, 19 / 2) := by
  refine ⟨(C8_fallback_scoring_bounded_deterministic.1 c8Data).1,
    C8_fallback_scoring_bounded_deterministic.2 c8Data c8Data rfl, ?_⟩
  have hA : (["ai", "artificial intelligence", "machine learning",
      "automation"].any (fun w => pyIn w (pyLower "Smart AI App")
        || pyIn w (pyLower "An automation tool for mobile platforms"))) = true := by
    decide
  have hB : (["mobile", "app", "platform", "software"].any
      (fun w => pyIn w (pyLower "Smart AI App")
        || pyIn w (pyLower "An automation tool for mobile platforms"))) = true := by
    decide
  have hS : stageScores "prototype" = (15 / 2, 9 / 2, 15 / 2) := by
    simp [stageScores]
  simp only [fallback_scoring, c8Data, hS, hA, hB, if_true]
  norm_num [clamp110, max_def, min_def]

/-! ## Claims about enhance_idea_with_ai (C4, C5) -/

/-- Claim C4: ai_validated is monotone under enhance.  If every persisted idea row
with this id has ai_validated = true before the call, then after any enhance call
(successful or interrupted at any step) every row with this id still has
ai_validated = true: the handler only ever assigns True to the flag, and the
failure paths leave the persisted state untouched.  Rows are keyed by primary key,
so the hypothesis and conclusion quantify over the rows carrying the id. -/
theorem C4_ai_validated_monotone :
    ∀ (db : DB) (idea_id uid : Nat) (refined : String) (m t r : ℚ)
      (failStep : Option Nat),
      (∀ i ∈ db.ideas, i.id = idea_id → i.ai_validated = true) →
      ∀ i2 ∈ (enhance_idea_with_ai db idea_id uid refined m t r failStep).1.ideas,
        i2.id = idea_id → i2.ai_validated = true := by
  intro db idea_id uid refined m t r failStep hpre i2 hi2 hid
  simp only [enhance_idea_with_ai] at hi2
  cases hfind : db.ideas.find? (fun i => i.id == idea_id && i.created_by == uid) with
  | none =>
    rw [hfind] at hi2
    exact hpre i2 hi2 hid
  | some idea =>
    rw [hfind] at hi2
    simp only [] at hi2
    split_ifs at hi2 with h0 h1 h2 h3
    · exact hpre i2 hi2 hid
    · exact hpre i2 hi2 hid
    · exact hpre i2 hi2 hid
    · exact hpre i2 hi2 hid
    · simp only [commitIdea, List.mem_map] at hi2
      obtain ⟨x, hx, hfx⟩ := hi2
      by_cases hxid : (x.id == idea_id) = true
      · rw [if_pos hxid] at hfx
        rw [← hfx]
      · rw [if_neg hxid] at hfx
        rw [← hfx] at hid
        exact absurd (beq_iff_eq.mpr hid) hxid

/-- Concrete fixture for the C4 witness: an already validated idea. -/
def c4Idea : Idea :=
  { id := 1
    title := "Validated idea"
    description := "An idea already enhanced once"
    development_stage := .testing
    ai_validated := true
    ai_refined_pitch := some "Existing pitch"
    market_potential := some 7
    technical_complexity := some 4
    resource_requirements := some 5
    created_by := 9 }

/-- Fixture database for the C4 witness. -/
def c4DB : DB := { ideas := [c4Idea], insights := [] }

/-- Witness for C4: a second enhance call on an already validated idea,
interrupted during scoring, leaves the persisted flag true. -/
theorem C4_ai_validated_monotone_witness :
    c4Idea ∈ (enhance_idea_with_ai c4DB 1 9 "new pitch" 6 4 3 (some 1)).1.ideas
    ∧ c4Idea.ai_validated = true := by
  have hmem : c4Idea ∈ (enhance_idea_with_ai c4DB 1 9 "new pitch" 6 4 3
      (some 1)).1.ideas := by
    show c4Idea ∈ [c4Idea]
    exact List.mem_singleton.mpr rfl
  refine ⟨hmem, ?_⟩
  refine C4_ai_validated_monotone c4DB 1 9 "new pitch" 6 4 3 (some 1) ?_ c4Idea
    hmem rfl
  intro i hi _
  simp only [c4DB, List.mem_singleton] at hi
  rw [hi]
  rfl

/-- Claim C5: enhance is atomic with respect to the persisted idea.  If an
unexpected exception interrupts the refine-then-score sequence at any step up to
and including the commit (k ≤ 3), the persisted state is returned verbatim (so
ai_validated and every other persisted field keep their pre-call values) and the
failure surfaces as the hard error HTTP 500. -/
theorem C5_enhance_atomic :
    ∀ (db : DB) (idea_id uid : Nat) (refined : String) (m t r : ℚ) (k : Nat),
      k ≤ 3 →
      ∀ idea,
        db.ideas.find? (fun i => i.id == idea_id && i.created_by == uid)
          = some idea →
        enhance_idea_with_ai db idea_id uid refined m t r (some k)
          = (db, .httpError 500) := by
  intro db idea_id uid refined m t r k hk idea hfind
  simp only [enhance_idea_with_ai, hfind]
  interval_cases k <;> simp

/-- Concrete fixture for the C5 witness: a not yet validated idea. -/
def c5Idea : Idea :=
  { id := 3
    title := "Fresh idea"
    description := "An idea not yet enhanced"
    development_stage := .concept
    ai_validated := false
    ai_refined_pitch := none
    market_potential := some 5
    technical_complexity := some 5
    resource_requirements := some 5
    created_by := 4 }

/-- Fixture database for the C5 witness. -/
def c5DB : DB := { ideas := [c5Idea], insights := [] }

/-- Witness for C5: an enhance call interrupted during the refinement step leaves
the database unchanged and surfaces HTTP 500. -/
theorem C5_enhance_atomic_witness :
    enhance_idea_with_ai c5DB 3 4 "pitch" 6 4 3 (some 0)
      = (c5DB, .httpError 500) :=
  C5_enhance_atomic c5DB 3 4 "pitch" 6 4 3 0 (by norm_num) c5Idea rfl

/-! ## Claim about ownership scoping of the router (C9) -/

/-- Claim C9: every idea-scoped router operation touches only the callers ideas.
The listing filters on created_by before any other filter, so every returned idea
belongs to the caller; get, enhance and insights look the idea up by id and owner
together, so when no row with this id belongs to the caller (in particular when
the row with this id belongs to another user, ids being primary keys) they answer
404 and leave the state unchanged; update and delete look the row up by id alone
and then answer 403 on an ownership mismatch, or 404 when the id does not exist,
in both cases leaving the state unchanged. -/
theorem C9_ownership_scoping :
    (∀ (db : DB) (uid skip limit : Nat) (stage : Option DevelopmentStage)
      (aiv : Option Bool) (search : Option String),
      ∀ i ∈ list_ideas db uid skip limit stage aiv search, i.created_by = uid)
    ∧ (∀ (db : DB) (idea_id uid : Nat),
        db.ideas.find? (fun i => i.id == idea_id && i.created_by == uid) = none →
        get_idea db idea_id uid = .httpError 404
        ∧ (∀ (env : AIEnv) (frg : Bool),
            get_idea_insights env db idea_id uid frg = (db, .httpError 404, 0))
        ∧ (∀ (refined : String) (m t r : ℚ) (failStep : Option Nat),
            enhance_idea_with_ai db idea_id uid refined m t r failStep
              = (db, .httpError 404)))
    ∧ (∀ (db : DB) (idea_id uid : Nat) (u : IdeaUpdate) (i : Idea),
        db.ideas.find? (fun i => i.id == idea_id) = some i →
        i.created_by ≠ uid →
        update_idea db idea_id uid u = (db, .httpError 403)
        ∧ delete_idea db idea_id uid = (db, .httpError 403))
    ∧ (∀ (db : DB) (idea_id uid : Nat) (u : IdeaUpdate),
        db.ideas.find? (fun i => i.id == idea_id) = none →
        update_idea db idea_id uid u = (db, .httpError 404)
        ∧ delete_idea db idea_id uid = (db, .httpError 404)) := by
  refine ⟨?_, ?_, ?_, ?_⟩
  · intro db uid skip limit stage aiv search i hi
    simp only [list_ideas] at hi
    have h2 := List.mem_of_mem_drop (List.mem_of_mem_take hi)
    have h3 : i ∈ db.ideas.filter (fun i => i.created_by == uid) := by
      rcases search with _ | s <;> rcases aiv with _ | b <;>
        rcases stage with _ | st <;>
        first
          | exact h2
          | exact List.mem_of_mem_filter h2
          | exact List.mem_of_mem_filter (List.mem_of_mem_filter h2)
          | exact List.mem_of_mem_filter
              (List.mem_of_mem_filter (List.mem_of_mem_filter h2))
    simpa using (List.mem_filter.mp h3).2
  · intro db idea_id uid hnone
    refine ⟨?_, ?_, ?_⟩
    · simp only [get_idea, hnone]
    · intro env frg
      simp only [get_idea_insights, hnone]
    · intro refined m t r failStep
      simp only [enhance_idea_with_ai, hnone]
  · intro db idea_id uid u i hfind hown
    have hb : (i.created_by != uid) = true := bne_iff_ne.mpr hown
    constructor
    · simp only [update_idea, hfind, hb, if_true]
    · simp only [delete_idea, hfind, hb, if_true]
  · intro db idea_id uid u hnone
    constructor
    · simp only [update_idea, hnone]
    · simp only [delete_idea, hnone]

/-- Fixture idea owned by user 5 for the C9 witness. -/
def c9Idea : Idea :=
  { id := 1
    title := "Other users idea"
    description := "Owned by user five"
    development_stage := .launch
    ai_validated := true
    ai_refined_pitch := some "pitch"
    market_potential := some 9
    technical_complexity := some 2
    resource_requirements := some 3
    created_by := 5 }

/-- Fixture database for the C9 witness. -/
def c9DB : DB := { ideas := [c9Idea], insights := [] }

/-- Fixture environment whose providers always fail; unused by the 404 paths. -/
def c9Env : AIEnv :=
  { marketProvider := fun _ => .err "down"
    riskProvider := fun _ => .err "down"
    roadmapProvider := fun _ => .err "down" }

/-- Empty partial update for the C9 witness. -/
def c9Update : IdeaUpdate :=
  { title := none
    description := none
    development_stage := none
    market_potential := none
    technical_complexity := none
    resource_requirements := none }

/-- Witness for C9: user 9 probing the idea owned by user 5 gets 404 from get and
insights and 403 from update and delete, with the state unchanged each time. -/
theorem C9_ownership_scoping_witness :
    get_idea c9DB 1 9 = .httpError 404
    ∧ get_idea_insights c9Env c9DB 1 9 false = (c9DB, .httpError 404, 0)
    ∧ update_idea c9DB 1 9 c9Update = (c9DB, .httpError 403)
    ∧ delete_idea c9DB 1 9 = (c9DB, .httpError 403) := by
  have h1 := C9_ownership_scoping.2.1 c9DB 1 9 rfl
  have h2 := C9_ownership_scoping.2.2.1 c9DB 1 9 c9Update c9Idea rfl (by decide)
  exact ⟨h1.1, h1.2.1 c9Env false, h2.1, h2.2⟩

/-! ## Non-emptiness of generated insight texts, and the cache-hit claim (C2) -/

/-- Helper: appending to a non-empty string stays non-empty. -/
lemma append_ne_empty_left (a b : String) (ha : a ≠ "") : a ++ b ≠ "" := by
  intro h
  apply ha
  cases a with
  | mk la =>
    cases b with
    | mk lb =>
      have hd : la ++ lb = ([] : List Char) := congrArg String.data h
      have hla : la = [] := (List.append_eq_nil.mp hd).1
      rw [hla]

/-- Helper: the market fallback template is never the empty string. -/
lemma fallback_market_ne_empty (t d : String) : fallback_market_insights t d ≠ "" := by
  unfold fallback_market_insights
  repeat apply append_ne_empty_left
  decide

/-- Helper: the risk fallback template is never the empty string. -/
lemma fallback_risk_ne_empty (t s : String) : fallback_risk_assessment t s ≠ "" := by
  unfold fallback_risk_assessment
  repeat apply append_ne_empty_left
  decide

/-- Helper: the roadmap fallback template is never the empty string. -/
lemma fallback_roadmap_ne_empty (t s : String) :
    fallback_implementation_roadmap t s ≠ "" := by
  unfold fallback_implementation_roadmap
  repeat apply append_ne_empty_left
  decide

/-- Helper: generate_market_insights never returns the empty string (each failure
path substitutes its non-empty fallback, and a successful path requires at least
50 characters). -/
lemma generate_market_insights_ne_empty (provider : Nat → ProviderOutcome)
    (title description : String) (rp : Option String) :
    (generate_market_insights provider title description rp).1 ≠ "" := by
  simp only [generate_market_insights]
  split
  · dsimp only
    intro h
    exact fallback_market_ne_empty _ _ h
  · split
    · dsimp only
      intro h
      exact fallback_market_ne_empty _ _ h
    · split
      · dsimp only
        intro h
        exact fallback_market_ne_empty _ _ h
      · next hshort =>
        intro h
        apply hshort
        rw [Bool.or_eq_true]
        left
        rw [beq_iff_eq]
        exact h

/-- Helper: generate_risk_assessment never returns the empty string. -/
lemma generate_risk_assessment_ne_empty (provider : Nat → ProviderOutcome)
    (d : IdeaData) : (generate_risk_assessment provider d).1 ≠ "" := by
  simp only [generate_risk_assessment]
  split
  · dsimp only
    intro h
    exact fallback_risk_ne_empty _ _ h
  · split
    · dsimp only
      intro h
      exact fallback_risk_ne_empty _ _ h
    · split
      · dsimp only
        intro h
        exact fallback_risk_ne_empty _ _ h
      · next hshort =>
        intro h
        apply hshort
        rw [Bool.or_eq_true]
        left
        rw [beq_iff_eq]
        exact h

/-- Helper: generate_implementation_roadmap never returns the empty string. -/
lemma generate_implementation_roadmap_ne_empty (provider : Nat → ProviderOutcome)
    (d : IdeaData) : (generate_implementation_roadmap provider d).1 ≠ "" := by
  simp only [generate_implementation_roadmap]
  split
  · dsimp only
    intro h
    exact fallback_roadmap_ne_empty _ _ h
  · split
    · dsimp only
      intro h
      exact fallback_roadmap_ne_empty _ _ h
    · split
      · dsimp only
        intro h
        exact fallback_roadmap_ne_empty _ _ h
      · next hshort =>
        intro h
        apply hshort
        rw [Bool.or_eq_true]
        left
        rw [beq_iff_eq]
        exact h

/-- Reachability invariant behind the C2 hypotheses: after the generation phase,
every persisted insight record either predates the call or has its three text
fields present and non-empty.  Consequently every record this program ever
persists has non-empty text fields. -/
lemma generateAndSaveInsights_writes_nonEmpty (env : AIEnv) (db : DB) (idea : Idea)
    (idea_id : Nat) (existing : Option IdeaInsight) :
    ∀ x ∈ (generateAndSaveInsights env db idea idea_id existing).1.insights,
      x ∈ db.insights ∨
      ((∃ s, x.market_insights = some s ∧ s ≠ "")
        ∧ (∃ s, x.risk_assessment = some s ∧ s ≠ "")
        ∧ (∃ s, x.implementation_roadmap = some s ∧ s ≠ "")) := by
  intro x hx
  cases existing with
  | none =>
    simp only [generateAndSaveInsights, routerGenStep, List.mem_append,
      List.mem_singleton] at hx
    rcases hx with hx | hx
    · exact Or.inl hx
    · right
      subst hx
      exact ⟨⟨_, rfl, generate_market_insights_ne_empty _ _ _ _⟩,
        ⟨_, rfl, generate_risk_assessment_ne_empty _ _⟩,
        ⟨_, rfl, generate_implementation_roadmap_ne_empty _ _⟩⟩
  | some r =>
    simp only [generateAndSaveInsights, routerGenStep, List.mem_map] at hx
    obtain ⟨y, hy, hfy⟩ := hx
    by_cases hyid : (y.idea_id == idea_id) = true
    · rw [if_pos hyid] at hfy
      right
      subst hfy
      exact ⟨⟨_, rfl, generate_market_insights_ne_empty _ _ _ _⟩,
        ⟨_, rfl, generate_risk_assessment_ne_empty _ _⟩,
        ⟨_, rfl, generate_implementation_roadmap_ne_empty _ _⟩⟩
    · rw [if_neg hyid] at hfy
      subst hfy
      exact Or.inl hy

/-- Claim C2: with an existing insight record and force_regenerate false, the
handler returns the stored record unchanged (the three text fields via getD on
their stored values, plus the stored flag and version) with the persisted state
untouched and zero provider attempts.  The hypotheses that the stored text fields
are present and non-empty hold for every record this program persists, by
generateAndSaveInsights_writes_nonEmpty. -/
theorem C2_cache_hit_returns_stored_record :
    ∀ (env : AIEnv) (db : DB) (idea_id uid : Nat) (idea : Idea) (r : IdeaInsight),
      db.ideas.find? (fun i => i.id == idea_id && i.created_by == uid)
        = some idea →
      db.insights.find? (fun x => x.idea_id == idea_id) = some r →
      (∃ s, r.market_insights = some s ∧ s ≠ "") →
      (∃ s, r.risk_assessment = some s ∧ s ≠ "") →
      (∃ s, r.implementation_roadmap = some s ∧ s ≠ "") →
      get_idea_insights env db idea_id uid false =
        (db, .ok
          { idea_id := idea_id
            idea_title := idea.title
            market_insights := r.market_insights.getD ""
            risk_assessment := r.risk_assessment.getD ""
            implementation_roadmap := r.implementation_roadmap.getD ""
            is_ai_generated := r.is_ai_generated
            generation_version := r.generation_version }, 0) := by
  intro env db idea_id uid idea r hfind hins h1 h2 h3
  obtain ⟨s1, hs1, hn1⟩ := h1
  obtain ⟨s2, hs2, hn2⟩ := h2
  obtain ⟨s3, hs3, hn3⟩ := h3
  simp only [get_idea_insights, hfind, hins, Bool.not_false, if_true]
  rw [hs1, hs2, hs3]
  simp [pyOr, hn1, hn2, hn3]

/-- Fixture insight record with non-empty fields for the C2 witness. -/
def c2Record : IdeaInsight :=
  { idea_id := 1
    market_insights := some "Stored market text"
    risk_assessment := some "Stored risk text"
    implementation_roadmap := some "Stored roadmap text"
    is_ai_generated := true
    generation_version := 2 }

/-- Fixture idea owned by user 9 for the C2 witness. -/
def c2Idea : Idea :=
  { id := 1
    title := "Cached idea"
    description := "An idea with stored insights"
    development_stage := .research
    ai_validated := true
    ai_refined_pitch := some "pitch"
    market_potential := some 6
    technical_complexity := some 4
    resource_requirements := some 5
    created_by := 9 }

/-- Fixture database for the C2 witness. -/
def c2DB : DB := { ideas := [c2Idea], insights := [c2Record] }

/-- Witness for C2: the cache hit returns exactly the stored texts, flag and
version, leaves the state unchanged, and makes zero provider attempts. -/
theorem C2_cache_hit_witness :
    get_idea_insights c9Env c2DB 1 9 false =
      (c2DB, .ok
        { idea_id := 1
          idea_title := "Cached idea"
          market_insights := "Stored market text"
          risk_assessment := "Stored risk text"
          implementation_roadmap := "Stored roadmap text"
          is_ai_generated := true
          generation_version := 2 }, 0) :=
  C2_cache_hit_returns_stored_record c9Env c2DB 1 9 c2Idea c2Record rfl rfl
    ⟨"Stored market text", rfl, by decide⟩
    ⟨"Stored risk text", rfl, by decide⟩
    ⟨"Stored roadmap text", rfl, by decide⟩

/-! ## Claim about regeneration (C3) -/

/-- Claim C3: a forced regeneration updates the existing record in place in a
single commit: the persisted insights table changes in one step to the table in
which the record for this idea carries all three freshly generated texts together,
is_ai_generated set for this run and generation_version incremented by exactly 1;
with no existing record, a record with generation_version 1 is created, again with
all three texts in the one committed row.  No persisted state with only one or two
of the fields updated exists in the transition. -/
theorem C3_regeneration_atomic_version :
    ∀ (env : AIEnv) (db : DB) (idea_id uid : Nat) (idea : Idea),
      db.ideas.find? (fun i => i.id == idea_id && i.created_by == uid)
        = some idea →
      (∀ r, db.insights.find? (fun x => x.idea_id == idea_id) = some r →
        ∃ (r2 : IdeaInsight) (n : Nat),
          get_idea_insights env db idea_id uid true =
            ({ db with insights :=
                db.insights.map (fun x => if x.idea_id == idea_id then r2 else x) },
              .ok (summaryOf idea_id idea.title r2), n)
          ∧ r2.generation_version = r.generation_version + 1
          ∧ r2.market_insights = some (generate_market_insights env.marketProvider
              idea.title idea.description
              (some (pyOr idea.ai_refined_pitch idea.description))).1
          ∧ r2.risk_assessment
              = some (generate_risk_assessment env.riskProvider (ideaDataOf idea)).1
          ∧ r2.implementation_roadmap = some (generate_implementation_roadmap
              env.roadmapProvider (ideaDataOf idea)).1)
      ∧ (db.insights.find? (fun x => x.idea_id == idea_id) = none →
          ∃ (r2 : IdeaInsight) (n : Nat),
            get_idea_insights env db idea_id uid true =
              ({ db with insights := db.insights ++ [r2] },
                .ok (summaryOf idea_id idea.title r2), n)
            ∧ r2.generation_version = 1
            ∧ r2.market_insights = some (generate_market_insights
                env.marketProvider idea.title idea.description
                (some (pyOr idea.ai_refined_pitch idea.description))).1
            ∧ r2.risk_assessment = some (generate_risk_assessment
                env.riskProvider (ideaDataOf idea)).1
            ∧ r2.implementation_roadmap = some (generate_implementation_roadmap
                env.roadmapProvider (ideaDataOf idea)).1) := by
  intro env db idea_id uid idea hfind
  constructor
  · intro r hins
    simp only [get_idea_insights, hfind, hins]
    exact ⟨_, _, rfl, rfl, rfl, rfl, rfl⟩
  · intro hins
    simp only [get_idea_insights, hfind, hins]
    exact ⟨_, _, rfl, rfl, rfl, rfl, rfl⟩

/-- Fixture AI text for the C3 witness market generation (over 50 characters). -/
def c3Text1 : String :=
  "Fresh market analysis content of more than fifty characters for the regeneration run."

/-- Fixture AI text for the C3 witness risk generation (over 50 characters). -/
def c3Text2 : String :=
  "Fresh risk assessment content of more than fifty characters for the regeneration run."

/-- Fixture AI text for the C3 witness roadmap generation (over 50 characters). -/
def c3Text3 : String :=
  "Fresh implementation roadmap content of more than fifty characters for the run."

/-- Fixture environment whose three providers succeed immediately. -/
def c3Env : AIEnv :=
  { marketProvider := fun _ => .resp c3Text1
    riskProvider := fun _ => .resp c3Text2
    roadmapProvider := fun _ => .resp c3Text3 }

/-- Fixture idea for the C3 witness. -/
def c3Idea : Idea :=
  { id := 1
    title := "Regenerated idea"
    description := "An idea whose insights get regenerated"
    development_stage := .prototype
    ai_validated := true
    ai_refined_pitch := some "refined pitch"
    market_potential := some 7
    technical_complexity := some 4
    resource_requirements := some 6
    created_by := 9 }

/-- Fixture stored record at version 1 for the C3 witness. -/
def c3Record : IdeaInsight :=
  { idea_id := 1
    market_insights := some "Old market text"
    risk_assessment := some "Old risk text"
    implementation_roadmap := some "Old roadmap text"
    is_ai_generated := false
    generation_version := 1 }

/-- Fixture database for the C3 witness. -/
def c3DB : DB := { ideas := [c3Idea], insights := [c3Record] }

/-- Witness for C3 at a concrete regeneration: the stored record moves from
version 1 to version 2 with all three fields replaced in the one committed
state. -/
theorem C3_regeneration_witness :
    ∃ (r2 : IdeaInsight) (n : Nat),
      get_idea_insights c3Env c3DB 1 9 true =
        ({ c3DB with insights :=
            c3DB.insights.map (fun x => if x.idea_id == 1 then r2 else x) },
          .ok (summaryOf 1 c3Idea.title r2), n)
      ∧ r2.generation_version = c3Record.generation_version + 1
      ∧ r2.market_insights = some (generate_market_insights c3Env.marketProvider
          c3Idea.title c3Idea.description
          (some (pyOr c3Idea.ai_refined_pitch c3Idea.description))).1
      ∧ r2.risk_assessment
          = some (generate_risk_assessment c3Env.riskProvider (ideaDataOf c3Idea)).1
      ∧ r2.implementation_roadmap = some (generate_implementation_roadmap
          c3Env.roadmapProvider (ideaDataOf c3Idea)).1 :=
  (C3_regeneration_atomic_version c3Env c3DB 1 9 c3Idea rfl).1 c3Record rfl

/-! ## Claim about partial provider failure during insight generation (C1) -/

/-- Fixture AI text for the C1 run risk generation (over 50 characters). -/
def c1RiskText : String :=
  "Detailed risk assessment produced by the provider, well over fifty characters long."

/-- Fixture AI text for the C1 run roadmap generation (over 50 characters). -/
def c1RoadText : String :=
  "Detailed implementation roadmap produced by the provider, over fifty characters."

/-- Fixture environment for C1: the market provider fails every attempt with a
provider error while the risk and roadmap providers succeed. -/
def c1Env : AIEnv :=
  { marketProvider := fun _ => .err "503 Service Unavailable"
    riskProvider := fun _ => .resp c1RiskText
    roadmapProvider := fun _ => .resp c1RoadText }

/-- Fixture idea for the C1 run. -/
def c1Idea : Idea :=
  { id := 1
    title := "SolarDrone"
    description := "Autonomous solar powered drone fleet for crop monitoring"
    development_stage := .prototype
    ai_validated := true
    ai_refined_pitch := some "A refined pitch for the drone fleet"
    market_potential := some 7
    technical_complexity := some 5
    resource_requirements := some 4
    created_by := 9 }

/-- Fixture database for the C1 run: no insight record exists yet. -/
def c1DB : DB := { ideas := [c1Idea], insights := [] }

/-- The record the C1 run persists.  The market field holds the service-level
fallback template, yet is_ai_generated is true: the effective (last-defined)
generate_market_insights absorbs the provider error internally and returns its
fallback with a normal return, so the router-level except handler that would set
is_ai_generated to false and use the router template never runs. -/
def c1Record : IdeaInsight :=
  { idea_id := 1
    market_insights := some (fallback_market_insights c1Idea.title
      c1Idea.description)
    risk_assessment := some c1RiskText
    implementation_roadmap := some c1RoadText
    is_ai_generated := true
    generation_version := 1 }

set_option maxRecDepth 8000 in
/-- Claim C1 evaluated at its failing input: with the market generation failing on
every provider attempt (3 attempts, then absorbed by the service) and the other
two generations succeeding, the persisted record and returned summary carry
is_ai_generated = true, the failed field carries the service-level fallback
template rather than the router-level template the claim describes, and the two
successful fields carry the provider texts unchanged. -/
theorem C1_provider_failure_keeps_flag_true :
    get_idea_insights c1Env c1DB 1 9 false =
      ({ c1DB with insights := [c1Record] },
        .ok (summaryOf 1 c1Idea.title c1Record), 5)
    ∧ c1Record.is_ai_generated = true
    ∧ c1Record.market_insights
        = some (fallback_market_insights c1Idea.title c1Idea.description)
    ∧ c1Record.risk_assessment = some c1RiskText
    ∧ c1Record.implementation_roadmap = some c1RoadText
    ∧ fallback_market_insights c1Idea.title c1Idea.description
        ≠ routerMarketFallback c1Idea.title := by
  refine ⟨rfl, rfl, rfl, rfl, rfl, ?_⟩
  intro h
  have hd := congrArg String.length h
  rw [show (fallback_market_insights c1Idea.title c1Idea.description).length
      = 1779 from rfl] at hd
  rw [show (routerMarketFallback c1Idea.title).length = 100 from rfl] at hd
  exact absurd hd (by norm_num)

end Incubator
